import Mathlib

/-!
Verification of the InternationAlly-v2 front-end session layer.

The embedding follows the repository source:
* `src/app/frontend/src/services/api.js` — the `ApiService` transport wrapper
  (bearer token in `localStorage`, one `fetch` per operation);
* `src/app/frontend/src/context/UIContext.jsx` — the notification layer
  (`showError` with a 5-second `setTimeout` clear, `startLoading`/`stopLoading`);
* `src/app/frontend/src/context/AuthContext.jsx` — the session provider
  (`login`, the pre-initialization spinner gate);
* `src/app/frontend/src/pages/ResourcesPage.jsx` — the chat session view
  (`ChatPage.handleSendMessage`, the variant that checks the `success` flag
  and surfaces failures through the notification layer);
* `src/unnamed/part_000` (the application root, route table) and
  `src/unnamed/part_002` (`ProtectedRoute`).

JavaScript idioms are modelled explicitly: `a || b` on strings via `jsOr` /
`jsSelect` (empty string, `null` and `undefined` are falsy), `response.ok`
as status in [200, 300), absent JSON fields as `Option`.
-/

namespace InternationAlly

/-- JS `a || fallback` for a possibly-absent string field: the fallback is
used when the field is `undefined`/`null` (`none`) or the empty string. -/
def jsOr (o : Option String) (fallback : String) : String :=
  match o with
  | none => fallback
  | some v => if v = "" then fallback else v

/-- JS truthiness of a possibly-absent string value. -/
def jsTruthyStr (o : Option String) : Bool :=
  match o with
  | none => false
  | some v => v ≠ ""

/-- JS `a || b` where both operands are possibly-absent strings: returns `a`
when `a` is truthy, otherwise returns `b` (whatever its truthiness). -/
def jsSelect (a b : Option String) : Option String :=
  if jsTruthyStr a then a else b

/-- A whitespace character in the sense of JS `String.prototype.trim`
(restricted to the ASCII whitespace characters; the exotic Unicode space
code points play no role in this code). -/
def jsWhitespace (c : Char) : Bool :=
  c = ' ' || c = '\t' || c = '\n' || c = '\r' || c = '\x0b' || c = '\x0c'

/-- JS `s.trim()`: strip leading and trailing whitespace. -/
def jsTrim (s : String) : String :=
  .mk (((s.data.dropWhile jsWhitespace).reverse.dropWhile jsWhitespace).reverse)

/-- JS truthiness of a possibly-absent boolean field (`response.success`). -/
def jsTruthyBool (o : Option Bool) : Bool :=
  o = some true

/-- `response.ok` of the Fetch API: status in the inclusive-exclusive
range [200, 300). -/
def httpOk (status : Nat) : Bool :=
  decide (200 ≤ status) && decide (status < 300)

/-- The user profile object as the client sees it; the client code treats it
as opaque (`data.user`, the parsed profile body), so two fields suffice. -/
structure UserProfile where
  id : Nat
  email : String
deriving Repr, DecidableEq

/-- The `localStorage` slot under key `'token'`: `none` when no token is
stored. Any value written by `setItem` is a string, so a stored token is
always `some s`. -/
abbrev TokenStore := Option String

/-- Outcome of one `fetch`: the promise either rejects (network-level
failure, carrying the rejection's message) or resolves to a response with a
status and a parsed JSON body. -/
inductive Outcome (β : Type) where
  | netFailure (msg : String)
  | reply (status : Nat) (body : β)
deriving Repr

/-- Parsed body of `/api/login` and `/api/signup` replies. On success the
contract supplies `{token, user}`; `error` is the failure message field.
`token` is total because `localStorage.setItem` coerces any value to a
string, so the stored result is always some string. -/
structure AuthBody where
  token : String
  user : Option UserProfile
  error : Option String
deriving Repr

/-- Parsed body of `/api/profile` replies: the profile payload itself plus
the `error` field consulted on non-2xx statuses. -/
structure ProfileBody where
  profile : UserProfile
  error : Option String
deriving Repr

/-- Parsed body of `/api/chat` replies: `{success, response|message, error?}`. -/
structure ChatBody where
  success : Option Bool
  response : Option String
  message : Option String
  error : Option String
deriving Repr

/-- Signup request payload `{email, password, firstName, lastName}`. -/
structure SignupData where
  email : String
  password : String
  firstName : String
  lastName : String
deriving Repr

/-- Profile-update payload: a partial profile object, modelled as JSON
field/value pairs. The transport only serializes it, never inspects it. -/
abbrev ProfileData := List (String × String)

/-- Result of one `ApiService` operation: the value returned or the message
of the `Error` thrown, the token store after the call, and the number of
network requests issued (each operation issues at most one `fetch`). -/
structure OpResult (α : Type) where
  result : Except String α
  store : TokenStore
  requests : Nat

/-- `ApiService.login` (api.js): POST `/api/login`; on a non-ok status throw
`data.error || 'Login failed'`; on ok store the token and return the body. -/
def ApiService.login (_email _password : String) (store : TokenStore)
    (out : Outcome AuthBody) : OpResult AuthBody :=
  match out with
  | .netFailure m => ⟨.error m, store, 1⟩
  | .reply status body =>
    if httpOk status then
      ⟨.ok body, some body.token, 1⟩
    else
      ⟨.error (jsOr body.error "Login failed"), store, 1⟩

/-- `ApiService.signup` (api.js): POST `/api/signup`; same shape as login
with fallback message `'Signup failed'`. -/
def ApiService.signup (_userData : SignupData) (store : TokenStore)
    (out : Outcome AuthBody) : OpResult AuthBody :=
  match out with
  | .netFailure m => ⟨.error m, store, 1⟩
  | .reply status body =>
    if httpOk status then
      ⟨.ok body, some body.token, 1⟩
    else
      ⟨.error (jsOr body.error "Signup failed"), store, 1⟩

/-- `ApiService.getProfile` (api.js): read the stored token and throw before
any `fetch` when it is absent; on 401 remove the token and throw the
session-expired error; on any other non-ok status throw
`data.error || 'Failed to fetch profile'`; the surrounding catch block
only logs and re-throws. -/
def ApiService.getProfile (store : TokenStore)
    (out : Outcome ProfileBody) : OpResult ProfileBody :=
  match store with
  | none => ⟨.error "No authentication token found", store, 0⟩
  | some _ =>
    match out with
    | .netFailure m => ⟨.error m, store, 1⟩
    | .reply status body =>
      if httpOk status then
        ⟨.ok body, store, 1⟩
      else if status = 401 then
        ⟨.error "Session expired. Please login again.", none, 1⟩
      else
        ⟨.error (jsOr body.error "Failed to fetch profile"), store, 1⟩

/-- `ApiService.updateProfile` (api.js): PUT `/api/profile`; identical token
handling to `getProfile`, fallback message `'Failed to update profile'`. -/
def ApiService.updateProfile (_profileData : ProfileData) (store : TokenStore)
    (out : Outcome ProfileBody) : OpResult ProfileBody :=
  match store with
  | none => ⟨.error "No authentication token found", store, 0⟩
  | some _ =>
    match out with
    | .netFailure m => ⟨.error m, store, 1⟩
    | .reply status body =>
      if httpOk status then
        ⟨.ok body, store, 1⟩
      else if status = 401 then
        ⟨.error "Session expired. Please login again.", none, 1⟩
      else
        ⟨.error (jsOr body.error "Failed to update profile"), store, 1⟩

/-- `ApiService.sendChatMessage` (api.js): POST `/api/chat`; identical token
handling to `getProfile`, fallback message `'Failed to send message'`; a
2xx body is returned as-is (the `success` flag is the caller's concern). -/
def ApiService.sendChatMessage (_message : String) (store : TokenStore)
    (out : Outcome ChatBody) : OpResult ChatBody :=
  match store with
  | none => ⟨.error "No authentication token found", store, 0⟩
  | some _ =>
    match out with
    | .netFailure m => ⟨.error m, store, 1⟩
    | .reply status body =>
      if httpOk status then
        ⟨.ok body, store, 1⟩
      else if status = 401 then
        ⟨.error "Session expired. Please login again.", none, 1⟩
      else
        ⟨.error (jsOr body.error "Failed to send message"), store, 1⟩

/-- One invocation of a transport operation together with the world's answer
to the request it would issue. -/
inductive ApiCall where
  | loginCall (email password : String) (out : Outcome AuthBody)
  | signupCall (userData : SignupData) (out : Outcome AuthBody)
  | getProfileCall (out : Outcome ProfileBody)
  | updateProfileCall (d : ProfileData) (out : Outcome ProfileBody)
  | sendChatCall (msg : String) (out : Outcome ChatBody)

/-- Uniform view of an `ApiService` operation's side effects: the token
store afterwards, the thrown error's message when the operation raised, and
the number of network requests issued. -/
structure CallSummary where
  store : TokenStore
  errMsg : Option String
  requests : Nat
deriving Repr, DecidableEq

/-- The thrown message of an operation result, `none` when it returned. -/
def exErr {α : Type} : Except String α → Option String
  | .error m => some m
  | .ok _ => none

/-- Run one transport operation against a token store, keeping only the
uniform effects. -/
def runCall (c : ApiCall) (s : TokenStore) : CallSummary :=
  match c with
  | .loginCall e p out =>
    let r := ApiService.login e p s out; ⟨r.store, exErr r.result, r.requests⟩
  | .signupCall d out =>
    let r := ApiService.signup d s out; ⟨r.store, exErr r.result, r.requests⟩
  | .getProfileCall out =>
    let r := ApiService.getProfile s out; ⟨r.store, exErr r.result, r.requests⟩
  | .updateProfileCall d out =>
    let r := ApiService.updateProfile d s out; ⟨r.store, exErr r.result, r.requests⟩
  | .sendChatCall m out =>
    let r := ApiService.sendChatMessage m s out; ⟨r.store, exErr r.result, r.requests⟩

/-- Whether the call is one of the three authenticated operations
(`getProfile`, `updateProfile`, `sendChatMessage`). -/
def isAuthedOp : ApiCall → Bool
  | .getProfileCall _ => true
  | .updateProfileCall _ _ => true
  | .sendChatCall _ _ => true
  | _ => false

/-- The HTTP status of the call's outcome, when the outcome is a reply. -/
def callStatus : ApiCall → Option Nat
  | .loginCall _ _ (.reply st _) => some st
  | .signupCall _ (.reply st _) => some st
  | .getProfileCall (.reply st _) => some st
  | .updateProfileCall _ (.reply st _) => some st
  | .sendChatCall _ (.reply st _) => some st
  | _ => none

/-- Whether the call writes the token: `login`/`signup` on a 2xx reply. -/
def isTokenWrite : ApiCall → Bool
  | .loginCall _ _ (.reply st _) => httpOk st
  | .signupCall _ (.reply st _) => httpOk st
  | _ => false

/-- The token such a write stores (`data.token`); `""` elsewhere, where it
is never consulted. -/
def writtenToken : ApiCall → String
  | .loginCall _ _ (.reply _ b) => b.token
  | .signupCall _ (.reply _ b) => b.token
  | _ => ""

/-- Whether the call deletes the token: an authenticated operation that was
actually issued (a token was stored) and got a 401 reply. -/
def isTokenDelete (c : ApiCall) (s : TokenStore) : Bool :=
  s.isSome && isAuthedOp c && (callStatus c = some 401)

/-- State of the `UIContext` notification layer: the current error banner,
the global busy flag, and the deadlines (absolute times) of the
`setTimeout(() ⇒ setError(null), 5000)` callbacks still pending. -/
structure UIState where
  error : Option String
  isLoading : Bool
  pending : List Nat
deriving Repr, DecidableEq

/-- `UIProvider`'s initial state. -/
def initialUI : UIState := ⟨none, false, []⟩

/-- `showError` (UIContext.jsx): set the message and schedule a clear after
a fixed 5-second delay. The schedule is appended unconditionally; no
earlier pending clear is cancelled. -/
def showError (now : Nat) (message : String) (s : UIState) : UIState :=
  { s with error := some message, pending := s.pending ++ [now + 5000] }

/-- A pending `setTimeout` callback firing at its deadline `d`: it runs
`setError(null)`, clearing whatever error is current, and is consumed. -/
def fireClear (d : Nat) (s : UIState) : UIState :=
  { s with error := none, pending := s.pending.erase d }

/-- `startLoading` (UIContext.jsx). -/
def startLoading (s : UIState) : UIState := { s with isLoading := true }

/-- `stopLoading` (UIContext.jsx). -/
def stopLoading (s : UIState) : UIState := { s with isLoading := false }

/-- Session state held by `AuthProvider`: the current user and whether the
startup token check has resolved. -/
structure AuthState where
  user : Option UserProfile
  isInitialized : Bool
deriving Repr, DecidableEq

/-- Result of `AuthContext.login`: the boolean handed to the caller plus
the session, notification and token-store states afterwards. The function
is total — the `catch` swallows every transport error, so nothing
propagates to the caller. -/
structure LoginResult where
  ret : Bool
  auth : AuthState
  ui : UIState
  store : TokenStore

/-- `login` (AuthContext.jsx): `startLoading`; call `ApiService.login`; on
success set the user from the body and return `true`; on any thrown error
show `'Login failed: ' + (error.message || 'Please try again')` and return
`false`; `finally stopLoading`. -/
def AuthContext.login (now : Nat) (email password : String) (st : AuthState)
    (ui : UIState) (store : TokenStore) (out : Outcome AuthBody) : LoginResult :=
  let ui1 := startLoading ui
  let r := ApiService.login email password store out
  match r.result with
  | .ok body =>
    ⟨true, { st with user := body.user }, stopLoading ui1, r.store⟩
  | .error m =>
    ⟨false, st,
      stopLoading (showError now ("Login failed: " ++ jsOr (some m) "Please try again") ui1),
      r.store⟩

/-- One entry of the chat transcript. `content` is `Option` because
`response.response || response.message` may be `undefined` when both
fields are absent. -/
structure ChatMessage where
  id : Nat
  content : Option String
  sender : String
deriving Repr, DecidableEq

/-- State of the chat session view (`ChatPage` in ResourcesPage.jsx,
lines 306–354): the transcript, the input field, the view-local busy flag,
and the notification-layer state it writes through `showError`. -/
structure ChatState where
  messages : List ChatMessage
  inputMessage : String
  isLoading : Bool
  ui : UIState
deriving Repr, DecidableEq

/-- The chat view's initial state. -/
def initialChatState : ChatState := ⟨[], "", false, initialUI⟩

/-- First phase of `handleSendMessage`, once the emptiness guard has
passed: append the user-role entry (id `Date.now()`), clear the input, set
the busy flag. `now` is the value of `Date.now()` at submit time. -/
def startSend (now : Nat) (s : ChatState) : ChatState :=
  { s with
    messages := s.messages ++ [⟨now, some s.inputMessage, "user"⟩],
    inputMessage := "",
    isLoading := true }

/-- The catch block of `handleSendMessage`: surface
`'Failed to send message: ' + error.message` and append the generic
assistant-role error entry (id `Date.now() + 1`). -/
def appendSendFailure (now2 : Nat) (m : String) (s : ChatState) : ChatState :=
  { s with
    ui := showError now2 ("Failed to send message: " ++ m) s.ui,
    messages := s.messages ++
      [⟨now2 + 1, some "Sorry, there was an error processing your message.", "assistant"⟩],
    isLoading := false }

/-- Second phase of `handleSendMessage`: resolution of the
`ApiService.sendChatMessage` promise. On a returned body with a truthy
`success` flag append the assistant entry with
`response.response || response.message`; otherwise throw
`response.error || 'Failed to get response'`, which the catch block
handles like any transport error. `now2` is `Date.now()` at resolution
time. The `finally` clears the busy flag on every path. -/
def resolveSend (now2 : Nat) (res : Except String ChatBody) (s : ChatState) : ChatState :=
  match res with
  | .ok body =>
    if jsTruthyBool body.success then
      { s with
        messages := s.messages ++
          [⟨now2 + 1, jsSelect body.response body.message, "assistant"⟩],
        isLoading := false }
    else
      appendSendFailure now2 (jsOr body.error "Failed to get response") s
  | .error m => appendSendFailure now2 m s

/-- Result of one complete `handleSendMessage` invocation: the view state,
the token store afterwards, and how many network requests were issued. -/
structure SendResult where
  state : ChatState
  store : TokenStore
  requests : Nat
deriving Repr, DecidableEq

/-- `handleSendMessage` (ResourcesPage.jsx lines 316–353) run to
completion: reject empty/whitespace-only input (`!inputMessage.trim()`)
with no effect at all, otherwise `startSend`, call
`ApiService.sendChatMessage` with the captured input, and resolve. -/
def handleSendMessage (now now2 : Nat) (store : TokenStore)
    (out : Outcome ChatBody) (s : ChatState) : SendResult :=
  if jsTrim s.inputMessage = "" then
    ⟨s, store, 0⟩
  else
    let api := ApiService.sendChatMessage s.inputMessage store out
    ⟨resolveSend now2 api.result (startSend now s), api.store, api.requests⟩

/-- Events one chat view instance can undergo. Typing replaces the input
field. A submit with blank trimmed input is a no-op. A submit is only
possible while not busy: the submit control is disabled while a request is
outstanding, and implicit form submission is blocked by the disabled
default button. A resolution is only possible while a request is
outstanding (the busy flag is exactly the in-flight marker, since the view
serializes sends). -/
inductive ChatStep : ChatState → ChatState → Prop
  | typeInput (t : String) (s : ChatState) :
      ChatStep s { s with inputMessage := t }
  | submitBlank (s : ChatState) :
      jsTrim s.inputMessage = "" → ChatStep s s
  | submitSend (now : Nat) (s : ChatState) :
      jsTrim s.inputMessage ≠ "" → s.isLoading = false →
      ChatStep s (startSend now s)
  | resolveStep (now2 : Nat) (res : Except String ChatBody) (s : ChatState) :
      s.isLoading = true → ChatStep s (resolveSend now2 res s)

/-- States one chat view instance can reach from its initial state. -/
abbrev ChatReachable (s : ChatState) : Prop :=
  Relation.ReflTransGen ChatStep initialChatState s

/-- Number of transcript entries with the given sender role. -/
def countSender (role : String) (s : ChatState) : Nat :=
  s.messages.countP (fun m => m.sender = role)

/-- The pages of the route table in the application root
(`src/unnamed/part_000`). -/
inductive Page where
  | landing | loginPage | signupPage | onboarding | chatPage | profilePage | resources
deriving Repr, DecidableEq

/-- What a routed slot displays once the session provider renders its
children: a page, a spinner, or a redirect to `/login`. -/
inductive PageView where
  | page (p : Page)
  | spinner
  | redirectToLogin
deriving Repr, DecidableEq

/-- What the session provider itself displays: the startup waiting
affordance, or its children. -/
inductive Render (α : Type) where
  | waiting
  | content (c : α)
deriving Repr, DecidableEq

/-- `ProtectedRoute` (`src/unnamed/part_002`): spinner until initialized,
redirect when no user, spinner while the global busy flag is set,
otherwise the protected child. -/
def ProtectedRoute.render (isInit : Bool) (user : Option UserProfile)
    (uiLoading : Bool) (child : Page) : PageView :=
  if !isInit then .spinner
  else if user.isNone then .redirectToLogin
  else if uiLoading then .spinner
  else .page child

/-- The gate inside `AuthProvider` (AuthContext.jsx lines 64–71): while
`isInitialized` is false it returns the centred spinner instead of
rendering `children` at all. -/
def AuthProvider.gate {α : Type} (isInit : Bool) (children : α) : Render α :=
  if isInit then .content children else .waiting

/-- The route table of `App` (`src/unnamed/part_000`): `/chat` and
`/profile` are wrapped in `ProtectedRoute`; every other route renders its
page directly. -/
def appRoute (st : AuthState) (uiLoading : Bool) : Page → PageView
  | .chatPage => ProtectedRoute.render st.isInitialized st.user uiLoading .chatPage
  | .profilePage => ProtectedRoute.render st.isInitialized st.user uiLoading .profilePage
  | p => .page p

/-- The application root: every route lives inside `AuthProvider`, so the
whole route table is behind the provider's initialization gate. -/
def App.render (st : AuthState) (uiLoading : Bool) (r : Page) : Render PageView :=
  AuthProvider.gate st.isInitialized (appRoute st uiLoading r)

/-- C8: calling `updateProfile` with any payload while no bearer token is
present in storage raises the no-token error before any network request is
issued — zero requests reach the backend, and the store is untouched. -/
theorem updateProfile_without_token_raises_before_request
    (d : ProfileData) (out : Outcome ProfileBody) :
    (ApiService.updateProfile d none out).requests = 0 ∧
      (ApiService.updateProfile d none out).result =
        .error "No authentication token found" ∧
      (ApiService.updateProfile d none out).store = none :=
  ⟨rfl, rfl, rfl⟩

/-- C10: while the startup token check has not resolved
(`isInitialized = false`), the session provider renders the waiting
affordance in place of all of its children, so no route — protected or
public — renders its page. -/
theorem uninitialized_renders_waiting (st : AuthState) (uiLoading : Bool)
    (r : Page) (h : st.isInitialized = false) :
    App.render st uiLoading r = Render.waiting := by
  simp [App.render, AuthProvider.gate, h]

/-- Witness for C10 at a concrete uninitialized state and a public route. -/
theorem uninitialized_renders_waiting_w :
    App.render ⟨none, false⟩ false Page.landing = Render.waiting :=
  uninitialized_renders_waiting ⟨none, false⟩ false Page.landing rfl

/-- C4: `showError` sets the current message and appends an unconditional
clear at a fixed 5-second deadline; a second `showError` within the window
cancels nothing, so the second message is cleared by the first call's
pending deadline, which is strictly earlier than 5 seconds after the
second call. -/
theorem showError_second_error_cleared_early (s : UIState) (t0 t1 : Nat)
    (m1 m2 : String) (h01 : t0 < t1) (hwin : t1 < t0 + 5000) :
    (showError t0 m1 s).error = some m1 ∧
      (showError t1 m2 (showError t0 m1 s)).error = some m2 ∧
      t0 + 5000 ∈ (showError t1 m2 (showError t0 m1 s)).pending ∧
      t1 + 5000 ∈ (showError t1 m2 (showError t0 m1 s)).pending ∧
      (fireClear (t0 + 5000) (showError t1 m2 (showError t0 m1 s))).error = none ∧
      t0 + 5000 < t1 + 5000 := by
  refine ⟨rfl, rfl, ?_, ?_, rfl, by omega⟩ <;> simp [showError]

/-- Witness for C4: two errors 1 second apart. -/
theorem showError_second_error_cleared_early_w :
    (showError 0 "first" initialUI).error = some "first" ∧
      (showError 1000 "second" (showError 0 "first" initialUI)).error = some "second" ∧
      0 + 5000 ∈ (showError 1000 "second" (showError 0 "first" initialUI)).pending ∧
      1000 + 5000 ∈ (showError 1000 "second" (showError 0 "first" initialUI)).pending ∧
      (fireClear (0 + 5000) (showError 1000 "second" (showError 0 "first" initialUI))).error = none ∧
      0 + 5000 < 1000 + 5000 :=
  showError_second_error_cleared_early initialUI 0 1000 "first" "second"
    (by decide) (by decide)

/-- A string that is empty or consists only of whitespace trims to the
empty string. -/
theorem jsTrim_of_whitespace {s : String}
    (h : ∀ c ∈ s.data, jsWhitespace c = true) : jsTrim s = "" := by
  have h1 : s.data.dropWhile jsWhitespace = [] :=
    List.dropWhile_eq_nil_iff.mpr h
  simp [jsTrim, h1]

/-- C5: submitting chat input that is empty or consists only of whitespace
leaves the whole send without effect: the view state — transcript
included — is unchanged, the token store is unchanged, and zero network
requests are issued. -/
theorem blank_input_no_send (now now2 : Nat) (store : TokenStore)
    (out : Outcome ChatBody) (s : ChatState)
    (h : ∀ c ∈ s.inputMessage.data, jsWhitespace c = true) :
    handleSendMessage now now2 store out s = ⟨s, store, 0⟩ := by
  simp [handleSendMessage, jsTrim_of_whitespace h]

/-- Witness for C5: a whitespace-only input against a live token. -/
theorem blank_input_no_send_w :
    handleSendMessage 3 4 (some "tok") (Outcome.netFailure "offline")
        ⟨[], "  \t ", false, initialUI⟩ =
      ⟨⟨[], "  \t ", false, initialUI⟩, some "tok", 0⟩ :=
  blank_input_no_send 3 4 (some "tok") (Outcome.netFailure "offline")
    ⟨[], "  \t ", false, initialUI⟩ (by decide)

/-- `401` is not an ok status. -/
theorem httpOk_401 : httpOk 401 = false := by decide

/-- C1: for every authenticated transport operation (`getProfile`,
`updateProfile`, `sendChatMessage`), a 401 reply leaves the stored bearer
token absent afterwards, whichever operation was called; when a token was
stored (so the request was actually issued), the operation completes by
raising the session-expired error. -/
theorem authed_op_401_clears_token (c : ApiCall) (s : TokenStore)
    (hc : isAuthedOp c = true) (h401 : callStatus c = some 401) :
    (runCall c s).store = none ∧
      (s.isSome = true →
        (runCall c s).errMsg = some "Session expired. Please login again.") := by
  cases c with
  | loginCall e p out => simp [isAuthedOp] at hc
  | signupCall d out => simp [isAuthedOp] at hc
  | getProfileCall out =>
    cases out with
    | netFailure m => simp [callStatus] at h401
    | reply st body =>
      simp [callStatus] at h401
      subst h401
      cases s with
      | none => simp [runCall, ApiService.getProfile, exErr]
      | some t => simp [runCall, ApiService.getProfile, httpOk_401, exErr]
  | updateProfileCall d out =>
    cases out with
    | netFailure m => simp [callStatus] at h401
    | reply st body =>
      simp [callStatus] at h401
      subst h401
      cases s with
      | none => simp [runCall, ApiService.updateProfile, exErr]
      | some t => simp [runCall, ApiService.updateProfile, httpOk_401, exErr]
  | sendChatCall msg out =>
    cases out with
    | netFailure m => simp [callStatus] at h401
    | reply st body =>
      simp [callStatus] at h401
      subst h401
      cases s with
      | none => simp [runCall, ApiService.sendChatMessage, exErr]
      | some t => simp [runCall, ApiService.sendChatMessage, httpOk_401, exErr]

/-- Witness for C1: `getProfile` with a stored token hitting a 401. -/
theorem authed_op_401_clears_token_w :
    (runCall (.getProfileCall (.reply 401 ⟨⟨1, "a@b.com"⟩, none⟩)) (some "t1")).store
        = none ∧
      ((some "t1" : TokenStore).isSome = true →
        (runCall (.getProfileCall (.reply 401 ⟨⟨1, "a@b.com"⟩, none⟩))
            (some "t1")).errMsg = some "Session expired. Please login again.") :=
  authed_op_401_clears_token (.getProfileCall (.reply 401 ⟨⟨1, "a@b.com"⟩, none⟩))
    (some "t1") (by decide) (by decide)

/-- C9: the stored token changes in exactly two cases — `login`/`signup`
write `data.token` on a 2xx reply, and the three authenticated operations
delete it on a 401 reply to an issued request; under every other outcome
(success of an authenticated call, a non-401 error status, a network-level
failure, or a skipped request) the store is left unchanged. -/
theorem token_store_frame (c : ApiCall) (s : TokenStore) :
    (runCall c s).store =
      if isTokenWrite c then some (writtenToken c)
      else if isTokenDelete c s then none
      else s := by
  cases c with
  | loginCall e p out =>
    cases out with
    | netFailure m =>
      simp [runCall, ApiService.login, isTokenWrite, isTokenDelete, isAuthedOp]
    | reply st body =>
      by_cases h : httpOk st = true <;>
        simp [runCall, ApiService.login, isTokenWrite, writtenToken,
          isTokenDelete, isAuthedOp, h]
  | signupCall d out =>
    cases out with
    | netFailure m =>
      simp [runCall, ApiService.signup, isTokenWrite, isTokenDelete, isAuthedOp]
    | reply st body =>
      by_cases h : httpOk st = true <;>
        simp [runCall, ApiService.signup, isTokenWrite, writtenToken,
          isTokenDelete, isAuthedOp, h]
  | getProfileCall out =>
    cases s with
    | none =>
      cases out <;>
        simp [runCall, ApiService.getProfile, isTokenWrite, isTokenDelete]
    | some t =>
      cases out with
      | netFailure m =>
        simp [runCall, ApiService.getProfile, isTokenWrite, isTokenDelete,
          callStatus]
      | reply st body =>
        by_cases h401 : st = 401
        · subst h401
          simp [runCall, ApiService.getProfile, isTokenWrite, isTokenDelete,
            isAuthedOp, callStatus, httpOk_401]
        · by_cases h : httpOk st = true <;>
            simp [runCall, ApiService.getProfile, isTokenWrite, isTokenDelete,
              isAuthedOp, callStatus, h, h401]
  | updateProfileCall d out =>
    cases s with
    | none =>
      cases out <;>
        simp [runCall, ApiService.updateProfile, isTokenWrite, isTokenDelete]
    | some t =>
      cases out with
      | netFailure m =>
        simp [runCall, ApiService.updateProfile, isTokenWrite, isTokenDelete,
          callStatus]
      | reply st body =>
        by_cases h401 : st = 401
        · subst h401
          simp [runCall, ApiService.updateProfile, isTokenWrite, isTokenDelete,
            isAuthedOp, callStatus, httpOk_401]
        · by_cases h : httpOk st = true <;>
            simp [runCall, ApiService.updateProfile, isTokenWrite, isTokenDelete,
              isAuthedOp, callStatus, h, h401]
  | sendChatCall msg out =>
    cases s with
    | none =>
      cases out <;>
        simp [runCall, ApiService.sendChatMessage, isTokenWrite, isTokenDelete]
    | some t =>
      cases out with
      | netFailure m =>
        simp [runCall, ApiService.sendChatMessage, isTokenWrite, isTokenDelete,
          callStatus]
      | reply st body =>
        by_cases h401 : st = 401
        · subst h401
          simp [runCall, ApiService.sendChatMessage, isTokenWrite, isTokenDelete,
            isAuthedOp, callStatus, httpOk_401]
        · by_cases h : httpOk st = true <;>
            simp [runCall, ApiService.sendChatMessage, isTokenWrite, isTokenDelete,
              isAuthedOp, callStatus, h, h401]

/-- C7: for every email/password pair, the session-layer `login` returns
`true` with the user set from the body and the token stored when the
transport login succeeds (2xx); on any transport failure — non-2xx reply
or network-level failure — it surfaces a message via the notification
layer and returns `false`, never throwing to its caller (the operation is
a total function into `LoginResult`), and leaves the store unchanged. -/
theorem login_result_spec (now : Nat) (email password : String)
    (st : AuthState) (ui : UIState) (store : TokenStore)
    (out : Outcome AuthBody) :
    match out with
    | .reply status body =>
      if httpOk status then
        (AuthContext.login now email password st ui store out).ret = true ∧
        (AuthContext.login now email password st ui store out).auth.user = body.user ∧
        (AuthContext.login now email password st ui store out).store = some body.token
      else
        (AuthContext.login now email password st ui store out).ret = false ∧
        (AuthContext.login now email password st ui store out).ui.error.isSome = true ∧
        (AuthContext.login now email password st ui store out).store = store
    | .netFailure _ =>
      (AuthContext.login now email password st ui store out).ret = false ∧
      (AuthContext.login now email password st ui store out).ui.error.isSome = true ∧
      (AuthContext.login now email password st ui store out).store = store := by
  cases out with
  | netFailure _m =>
    simp [AuthContext.login, ApiService.login, startLoading, stopLoading,
      showError]
  | reply status body =>
    by_cases h : httpOk status = true
    · simp [AuthContext.login, ApiService.login, startLoading, stopLoading, h]
    · simp [AuthContext.login, ApiService.login, startLoading, stopLoading,
        showError, h]

/-- C6: sending a non-empty chat message with a stored token against a
backend replying 2xx with `{success: true, response: R}` (`R` non-empty)
appends exactly two transcript entries — a user-role entry whose content
is the sent message followed by an assistant-role entry whose content is
`R` — and leaves the view's busy flag false and the input cleared. -/
theorem send_success_appends_pair (now now2 : Nat) (tok : String)
    (status : Nat) (body : ChatBody) (s : ChatState) (R : String)
    (hne : jsTrim s.inputMessage ≠ "") (hok : httpOk status = true)
    (hsucc : body.success = some true) (hresp : body.response = some R)
    (hR : R ≠ "") :
    (handleSendMessage now now2 (some tok) (.reply status body) s).state.messages
        = s.messages ++
          [⟨now, some s.inputMessage, "user"⟩, ⟨now2 + 1, some R, "assistant"⟩] ∧
      (handleSendMessage now now2 (some tok) (.reply status body) s).state.isLoading
        = false ∧
      (handleSendMessage now now2 (some tok) (.reply status body) s).state.inputMessage
        = "" := by
  simp [handleSendMessage, hne, ApiService.sendChatMessage, hok, resolveSend,
    jsTruthyBool, hsucc, startSend, jsSelect, jsTruthyStr, hresp, hR]

/-- Witness for C6: the housing scenario from the specification. -/
theorem send_success_appends_pair_w :
    (handleSendMessage 10 20 (some "t1")
        (.reply 200 ⟨some true, some "Try these neighborhoods...", none, none⟩)
        ⟨[], "Where can I find housing near campus?", false, initialUI⟩).state.messages
        = [] ++
          [⟨10, some "Where can I find housing near campus?", "user"⟩,
           ⟨20 + 1, some "Try these neighborhoods...", "assistant"⟩] ∧
      (handleSendMessage 10 20 (some "t1")
        (.reply 200 ⟨some true, some "Try these neighborhoods...", none, none⟩)
        ⟨[], "Where can I find housing near campus?", false, initialUI⟩).state.isLoading
        = false ∧
      (handleSendMessage 10 20 (some "t1")
        (.reply 200 ⟨some true, some "Try these neighborhoods...", none, none⟩)
        ⟨[], "Where can I find housing near campus?", false, initialUI⟩).state.inputMessage
        = "" :=
  send_success_appends_pair 10 20 "t1" 200
    ⟨some true, some "Try these neighborhoods...", none, none⟩
    ⟨[], "Where can I find housing near campus?", false, initialUI⟩
    "Try these neighborhoods..." (by decide) (by decide) rfl rfl (by decide)

/-- C2: a send whose request returns a 2xx body with a falsy `success`
flag has the same user-visible outcome as a transport error: the
transcript gains the user entry plus the generic assistant-role error
entry — identical to the transcript after a network-level failure of the
same send — and the error is surfaced through the notification layer in
both cases. -/
theorem success_false_like_transport_error (now now2 : Nat) (tok : String)
    (status : Nat) (body : ChatBody) (netMsg : String) (s : ChatState)
    (hne : jsTrim s.inputMessage ≠ "") (hok : httpOk status = true)
    (hfail : jsTruthyBool body.success = false) :
    (handleSendMessage now now2 (some tok) (.reply status body) s).state.messages
        = s.messages ++
          [⟨now, some s.inputMessage, "user"⟩,
           ⟨now2 + 1, some "Sorry, there was an error processing your message.",
             "assistant"⟩] ∧
      (handleSendMessage now now2 (some tok) (.reply status body) s).state.messages
        = (handleSendMessage now now2 (some tok) (.netFailure netMsg) s).state.messages ∧
      (handleSendMessage now now2 (some tok)
          (.reply status body) s).state.ui.error.isSome = true ∧
      (handleSendMessage now now2 (some tok)
          (.netFailure netMsg) s).state.ui.error.isSome = true := by
  have hns : ¬ body.success = some true := by simpa [jsTruthyBool] using hfail
  simp [handleSendMessage, hne, ApiService.sendChatMessage, hok, resolveSend,
    jsTruthyBool, hns, startSend, appendSendFailure, showError]

/-- Witness for C2: a 200 reply with `success: false` and an error field. -/
theorem success_false_like_transport_error_w :
    (handleSendMessage 1 2 (some "t1")
        (.reply 200 ⟨some false, none, none, some "backend failure"⟩)
        ⟨[], "hello", false, initialUI⟩).state.messages
        = [] ++
          [⟨1, some "hello", "user"⟩,
           ⟨2 + 1, some "Sorry, there was an error processing your message.",
             "assistant"⟩] ∧
      (handleSendMessage 1 2 (some "t1")
        (.reply 200 ⟨some false, none, none, some "backend failure"⟩)
        ⟨[], "hello", false, initialUI⟩).state.messages
        = (handleSendMessage 1 2 (some "t1") (.netFailure "Failed to fetch")
            ⟨[], "hello", false, initialUI⟩).state.messages ∧
      (handleSendMessage 1 2 (some "t1")
        (.reply 200 ⟨some false, none, none, some "backend failure"⟩)
        ⟨[], "hello", false, initialUI⟩).state.ui.error.isSome = true ∧
      (handleSendMessage 1 2 (some "t1") (.netFailure "Failed to fetch")
        ⟨[], "hello", false, initialUI⟩).state.ui.error.isSome = true :=
  success_false_like_transport_error 1 2 "t1" 200
    ⟨some false, none, none, some "backend failure"⟩ "Failed to fetch"
    ⟨[], "hello", false, initialUI⟩ (by decide) (by decide) rfl

/-- The balance the chat view maintains: while a send is in flight the
user-role entries lead the assistant-role entries by exactly one,
otherwise the counts are equal. -/
def chatBalanced (s : ChatState) : Prop :=
  countSender "user" s =
    countSender "assistant" s + (if s.isLoading then 1 else 0)

/-- Every event of the chat view preserves the balance. -/
theorem chatBalanced_step {s s' : ChatState} (h : ChatStep s s')
    (hs : chatBalanced s) : chatBalanced s' := by
  cases h with
  | typeInput t s => simpa [chatBalanced, countSender] using hs
  | submitBlank s hb => exact hs
  | submitSend now s hne hload =>
    simp [chatBalanced, countSender, startSend, List.countP_append,
      List.countP_cons, hload] at hs ⊢
    omega
  | resolveStep now2 res s hload =>
    cases res with
    | ok body =>
      by_cases hb : jsTruthyBool body.success = true
      · simp [chatBalanced, countSender, resolveSend, hb, List.countP_append,
          List.countP_cons, hload] at hs ⊢
        omega
      · simp [chatBalanced, countSender, resolveSend, hb, appendSendFailure,
          List.countP_append, List.countP_cons, hload] at hs ⊢
        omega
    | error m =>
      simp [chatBalanced, countSender, resolveSend, appendSendFailure,
        List.countP_append, List.countP_cons, hload] at hs ⊢
      omega

/-- Every event of the chat view leaves the transcript no shorter. -/
theorem chatStep_length_mono {s s' : ChatState} (h : ChatStep s s') :
    s.messages.length ≤ s'.messages.length := by
  cases h with
  | typeInput t s => simp
  | submitBlank s hb => exact Nat.le_refl _
  | submitSend now s hne hload => simp [startSend]
  | resolveStep now2 res s hload =>
    cases res with
    | ok body =>
      by_cases hb : jsTruthyBool body.success = true <;>
        simp [resolveSend, hb, appendSendFailure]
    | error m => simp [resolveSend, appendSendFailure]

/-- Every reachable state of the chat view is balanced. -/
theorem chatBalanced_reachable {s : ChatState} (h : ChatReachable s) :
    chatBalanced s := by
  induction h with
  | refl => simp [chatBalanced, countSender, initialChatState]
  | tail _ step ih => exact chatBalanced_step step ih

/-- C3: over every sequence of events of one chat view instance, the
transcript length never decreases, and in every reachable state the
user-role entries outnumber-or-equal the assistant-role entries and lead
by at most one. -/
theorem transcript_monotone_balanced :
    (∀ s s', ChatStep s s' → s.messages.length ≤ s'.messages.length) ∧
      (∀ s, ChatReachable s →
        countSender "assistant" s ≤ countSender "user" s ∧
          countSender "user" s ≤ countSender "assistant" s + 1) := by
  refine ⟨fun s s' h => chatStep_length_mono h, fun s h => ?_⟩
  have hb := chatBalanced_reachable h
  unfold chatBalanced at hb
  by_cases hl : s.isLoading = true <;> simp [hl] at hb <;> omega

/-- Witness for C3: typing `"hi"` and submitting it is a run of the view;
the monotonicity and the balance bounds hold at its concrete states. -/
theorem transcript_monotone_balanced_w :
    (⟨[], "hi", false, initialUI⟩ : ChatState).messages.length ≤
        (startSend 3 ⟨[], "hi", false, initialUI⟩).messages.length ∧
      (countSender "assistant" (startSend 3 ⟨[], "hi", false, initialUI⟩) ≤
          countSender "user" (startSend 3 ⟨[], "hi", false, initialUI⟩) ∧
        countSender "user" (startSend 3 ⟨[], "hi", false, initialUI⟩) ≤
          countSender "assistant" (startSend 3 ⟨[], "hi", false, initialUI⟩) + 1) :=
  ⟨transcript_monotone_balanced.1 ⟨[], "hi", false, initialUI⟩
      (startSend 3 ⟨[], "hi", false, initialUI⟩)
      (ChatStep.submitSend 3 ⟨[], "hi", false, initialUI⟩ (by decide) rfl),
    transcript_monotone_balanced.2 (startSend 3 ⟨[], "hi", false, initialUI⟩)
      (Relation.ReflTransGen.tail
        (Relation.ReflTransGen.tail Relation.ReflTransGen.refl
          (ChatStep.typeInput "hi" initialChatState))
        (ChatStep.submitSend 3 ⟨[], "hi", false, initialUI⟩ (by decide) rfl))⟩

end InternationAlly
